import Mathlib

/-!
Verification of the cross-ORM timestamp interoperability layer of this
repository: the two custom `UnixTimestampDateTime` column types (one in the
SQLAlchemy models package, one in the SQLModel models package), the user
routers, and the Prisma client manager.

Modelling conventions of the shallow embedding:
* A Python `datetime` is modelled by its wall-clock components encoded
  bijectively as microseconds since 1970-01-01 00:00:00 (of the components
  read as a plain calendar time), together with the `tzinfo` UTC offset in
  seconds (`none` = naive datetime).  Component-wise equality of Python
  datetimes coincides with equality of this representation.
* The source's conversions `int(value.timestamp() * 1000)` and
  `datetime.fromtimestamp(value / 1000, tz=timezone.utc)` go through binary
  floating point; the embedding reproduces the binary64 computations exactly,
  as dyadic rationals with correctly rounded (round-to-nearest, ties-to-even)
  division and multiplication, following CPython's implementation
  (`timedelta.total_seconds` performs one rounded division; `fromtimestamp`
  splits the double with `modf`, multiplies the fraction by 10^6 and rounds
  half-even to whole microseconds).  The modelled values stay far inside
  binary64's exponent range, so overflow and subnormal handling are not
  reached.
* The dynamically typed raw column value (`Any`) is an explicit tagged union
  `Value`; raising `ValueError` is modelled by `Except.error`.
* `datetime.fromisoformat` and `datetime.fromtimestamp` are Python standard
  library collaborators; the decode dispatcher is therefore also stated
  generically over them (`processResultValueGen`), and the concrete column
  types instantiate it with this file's models of the two functions.
-/

namespace TsInterop

/-- Model of a Python `datetime`: `usec` is the bijective encoding of the
wall-clock components (year-month-day hour:minute:second.microsecond) as
microseconds since 1970-01-01 00:00:00 taken as calendar time; `off` is the
`tzinfo` UTC offset in seconds, `none` for a naive datetime. -/
structure Datetime where
  usec : Int
  off : Option Int
deriving DecidableEq, Repr

/-- The dynamically typed raw column value handed to/by the database driver:
`vnull` is Python `None`, `vdt` an already decoded `datetime`, `vint` an
integer, `vstr` a string, `vother` any value of another runtime type
(opaque, distinguished by a tag). -/
inductive Value where
  | vnull : Value
  | vdt : Datetime → Value
  | vint : Int → Value
  | vstr : String → Value
  | vother : Nat → Value
deriving DecidableEq, Repr

/-! ### Exact binary64 arithmetic

The fragments of IEEE-754 binary64 needed by the two float expressions of
the source, computed exactly on dyadic rationals. -/

/-- Bit length of a natural number (`⌊log2 n⌋ + 1` for positive `n`),
written with structural fuel recursion so the kernel can evaluate it. -/
def bitlenAux : Nat → Nat → Nat
  | 0, _ => 0
  | _ + 1, 0 => 0
  | fuel + 1, n => bitlenAux fuel (n / 2) + 1

/-- Bit length of a natural number; 4200 bits of fuel covers every value
these computations produce. -/
def bitlen (n : Nat) : Nat :=
  bitlenAux 4200 n

/-- Whether `n / d ≥ 2^E` for positive naturals `n`, `d`. -/
def ratGePow2 (n d : Nat) (E : Int) : Bool :=
  if 0 ≤ E then d * 2 ^ E.toNat ≤ n else d ≤ n * 2 ^ (-E).toNat

/-- `⌊log2 (n / d)⌋` for positive naturals `n`, `d`. -/
def ratFloorLog2 (n d : Nat) : Int :=
  let e0 : Int := (bitlen n : Int) - (bitlen d : Int)
  if ratGePow2 n d e0 then e0 else e0 - 1

/-- Round the positive rational `n / d` to 53 significant bits, ties to
even: the binary64 significand/exponent pair `(m, e)` with value `m·2^e`
and `2^52 ≤ m < 2^53`. -/
def roundPos53 (n d : Nat) : Nat × Int :=
  let E := ratFloorLog2 n d
  let sh := E - 52
  let (num, den) := if 0 ≤ sh then (n, d * 2 ^ sh.toNat) else (n * 2 ^ (-sh).toNat, d)
  let q := num / den
  let r := num % den
  let m := if den < 2 * r then q + 1 else if 2 * r < den then q else q + q % 2
  if m = 2 ^ 53 then (2 ^ 52, E - 51) else (m, sh)

/-- A binary64 value as the exact dyadic rational `m · 2^e`. -/
structure Fl64 where
  m : Int
  e : Int
deriving DecidableEq, Repr

/-- The binary64 value nearest to `num / den` (`den` positive), ties to
even — one correctly rounded division, as CPython's `int / int` true
division and `timedelta.total_seconds` perform. -/
def flOfRat (num : Int) (den : Nat) : Fl64 :=
  if num = 0 then ⟨0, 0⟩
  else
    let p := roundPos53 num.natAbs den
    if num < 0 then ⟨-(p.1 : Int), p.2⟩ else ⟨(p.1 : Int), p.2⟩

/-- Multiply a binary64 value by an integer, correctly rounded. -/
def flMulInt (x : Fl64) (k : Int) : Fl64 :=
  if 0 ≤ x.e then flOfRat (x.m * k * (2 ^ x.e.toNat : Nat)) 1
  else flOfRat (x.m * k) (2 ^ (-x.e).toNat)

/-- Truncate a binary64 value toward zero — Python `int(x)` on a float. -/
def flTrunc (x : Fl64) : Int :=
  if 0 ≤ x.e then x.m * (2 ^ x.e.toNat : Nat) else x.m.tdiv (2 ^ (-x.e).toNat : Nat)

/-- C `modf`: split a binary64 value into its integral part (truncated
toward zero, an exact integer) and its exact fractional part (itself a
binary64 value, kept unnormalized). -/
def flModf (x : Fl64) : Int × Fl64 :=
  if 0 ≤ x.e then (x.m * (2 ^ x.e.toNat : Nat), ⟨0, 0⟩)
  else
    let dpow : Int := (2 ^ (-x.e).toNat : Nat)
    let i := x.m.tdiv dpow
    (i, ⟨x.m - i * dpow, x.e⟩)

/-- Round a binary64 value to the nearest integer, ties to even — Python
`round`, and CPython's `_PyTime_ROUND_HALF_EVEN`. -/
def flRoundHalfEven (x : Fl64) : Int :=
  if 0 ≤ x.e then x.m * (2 ^ x.e.toNat : Nat)
  else
    let d : Nat := 2 ^ (-x.e).toNat
    let n := x.m.natAbs
    let q := n / d
    let r := n % d
    let k := if d < 2 * r then q + 1 else if 2 * r < d then q else q + q % 2
    if x.m < 0 then -(k : Int) else (k : Int)

/-! ### The two float conversions of the source -/

/-- Embedding of `int(value.timestamp() * 1000)` with binary64 semantics:
`timestamp()` is one correctly rounded division of the exact UTC
microseconds by 10^6 (CPython computes it as
`(self - _EPOCH).total_seconds()`, and `total_seconds` divides the exact
integer microsecond count by 10^6), the `* 1000` is one correctly rounded
multiplication, and `int(...)` truncates toward zero.  A naive datetime is
interpreted with the ambient local-timezone offset `localOff` (seconds). -/
def pyTimestampMs (localOff : Int) (dt : Datetime) : Int :=
  let usecUTC := dt.usec - (dt.off.getD localOff) * 1000000
  flTrunc (flMulInt (flOfRat usecUTC 1000000) 1000)

/-- The total microsecond count `datetime.fromtimestamp(v / 1000,
tz=timezone.utc)` computes, with binary64 semantics, following CPython's
`_PyTime_DoubleToDenominator`: `v / 1000` is one correctly rounded
division; the double is split by `modf`; the fraction is multiplied by 10^6
(one rounded multiplication) and rounded half-even to whole microseconds,
with carry into the seconds. -/
def pyFromtimestampUsec (v : Int) : Int :=
  let x := flOfRat v 1000
  let p := flModf x
  let us0 := flRoundHalfEven (flMulInt p.2 1000000)
  let sec_us :=
    if 1000000 ≤ us0 then (p.1 + 1, us0 - 1000000)
    else if us0 < 0 then (p.1 - 1, us0 + 1000000)
    else (p.1, us0)
  sec_us.1 * 1000000 + sec_us.2

/-- Embedding of `datetime.fromtimestamp(value / 1000, tz=timezone.utc)`:
the microsecond count of `pyFromtimestampUsec`, as a UTC-aware instant when
it lies in the supported year range 1..9999, and a `ValueError` otherwise. -/
def pyFromtimestampUTCms (v : Int) : Except String Datetime :=
  if -62135596800000000 ≤ pyFromtimestampUsec v ∧ pyFromtimestampUsec v ≤ 253402300799999999 then
    Except.ok ⟨pyFromtimestampUsec v, some 0⟩
  else Except.error "year is out of range"

/-! ### Calendar arithmetic and the ISO-8601 parser model -/

/-- Model of Python `str.replace(old, new)` for a single-character `old`:
every occurrence of `c` in the character list is replaced by `r`. -/
def pyReplaceChar (cs : List Char) (c : Char) (r : List Char) : List Char :=
  match cs with
  | [] => []
  | a :: rest => (if a = c then r else [a]) ++ pyReplaceChar rest c r

/-- Days from 1970-01-01 of the civil date `y-m-d` (proleptic Gregorian),
used to encode parsed components as epoch microseconds.  All divisions are
floor divisions (`Int.ediv`/`Int.emod` with positive divisors). -/
def daysFromCivil (y m d : Int) : Int :=
  let y1 := if m ≤ 2 then y - 1 else y
  let era := Int.ediv y1 400
  let yoe := y1 - era * 400
  let mp := Int.emod (m + 9) 12
  let doy := Int.ediv (153 * mp + 2) 5 + d - 1
  let doe := yoe * 365 + Int.ediv yoe 4 - Int.ediv yoe 100 + doy
  era * 146097 + doe - 719468

/-- Wall-clock components to the `Datetime.usec` encoding (microseconds
since 1970-01-01 00:00:00 of the components as calendar time). -/
def civilUsec (y mo d h mi s us : Nat) : Int :=
  (daysFromCivil y mo d * 86400 + (h * 3600 + mi * 60 + s : Nat)) * 1000000 + us

/-- Leap year test of the proleptic Gregorian calendar. -/
def isLeapYear (y : Nat) : Bool :=
  y % 4 == 0 && (y % 100 != 0 || y % 400 == 0)

/-- Number of days of month `m` in year `y`. -/
def daysInMonth (y m : Nat) : Nat :=
  if m = 2 then (if isLeapYear y then 29 else 28)
  else if m = 4 ∨ m = 6 ∨ m = 9 ∨ m = 11 then 30
  else 31

/-- Value of a digit run, most significant first. -/
def digitsToNat (cs : List Char) : Nat :=
  cs.foldl (fun a c => a * 10 + (c.toNat - 48)) 0

/-- Consume exactly `k` decimal digits, returning their value and the rest. -/
def takeDigitsAux : Nat → Nat → List Char → Option (Nat × List Char)
  | 0, acc, cs => some (acc, cs)
  | k + 1, acc, c :: cs =>
      if c.isDigit then takeDigitsAux k (acc * 10 + (c.toNat - 48)) cs else none
  | _ + 1, _, [] => none

/-- Consume exactly `k` decimal digits from the front of `cs`. -/
def takeDigits (k : Nat) (cs : List Char) : Option (Nat × List Char) :=
  takeDigitsAux k 0 cs

/-- Microseconds of a fractional-seconds digit run: the first six digits,
right-padded with zeros (digits beyond the sixth are truncated, as in
CPython). -/
def fracUsec (ds : List Char) : Nat :=
  let d6 := ds.take 6
  digitsToNat d6 * 10 ^ (6 - d6.length)

/-- Consume the digit run of a fractional part (at least one digit). -/
def fracTail (r : List Char) : Option (Nat × List Char) :=
  let ds := r.takeWhile Char.isDigit
  if ds.isEmpty then none else some (fracUsec ds, r.dropWhile Char.isDigit)

/-- Consume an optional fractional part introduced by `'.'` or `','`. -/
def parseFracOpt (r : List Char) : Option (Nat × List Char) :=
  match r with
  | '.' :: r6 => fracTail r6
  | ',' :: r6 => fracTail r6
  | _ => some (0, r)

/-- Minutes and seconds after a two-digit hour, as CPython's shared
hour/minute/second parser reads them: extended `[:MM[:SS]]` or basic
`[MM[SS]]`, with consistent colon use. -/
def parseMinSec (r1 : List Char) : Option (Nat × Nat × List Char) :=
  match r1 with
  | ':' :: r2 =>
      (takeDigits 2 r2).bind (fun p =>
        match p.2 with
        | ':' :: r4 => (takeDigits 2 r4).map (fun q => (p.1, q.1, q.2))
        | _ => some (p.1, 0, p.2))
  | c :: _ =>
      if c.isDigit then
        (takeDigits 2 r1).bind (fun p =>
          match p.2 with
          | c2 :: _ =>
              if c2.isDigit then (takeDigits 2 p.2).map (fun q => (p.1, q.1, q.2))
              else some (p.1, 0, p.2)
          | [] => some (p.1, 0, []))
      else some (0, 0, r1)
  | [] => some (0, 0, [])

/-- Parse a time of day `HH[[:]MM[[:]SS]][(.|,)digits]` and validate the
component ranges the `datetime` constructor enforces; the fractional part
always contributes whole microseconds. -/
def parseTimeComps (cs : List Char) : Option (Nat × Nat × Nat × Nat × List Char) := do
  let (h, r1) ← takeDigits 2 cs
  let (mi, sec, r3) ← parseMinSec r1
  let (us, rest) ← parseFracOpt r3
  if 24 ≤ h ∨ 60 ≤ mi ∨ 60 ≤ sec then none
  else some (h, mi, sec, us, rest)

/-- Parse the magnitude `HH[[:]MM[[:]SS]]` of a UTC offset, in seconds:
CPython reads the offset with the same component parser but skips the
per-component range validation, only requiring the total to stay strictly
below 24 hours. -/
def parseOffMagTail (r : List Char) : Option Int := do
  let (oh, r1) ← takeDigits 2 r
  let (om, os, r3) ← parseMinSec r1
  if r3 = [] ∧ oh * 3600 + om * 60 + os < 86400 then
    some ((oh * 3600 + om * 60 + os : Nat) : Int)
  else none

/-- Parse the tail of the string after the time of day: nothing (naive),
a final `'Z'`, or a signed UTC offset. -/
def parseOffsetTail (cs : List Char) : Option (Option Int) :=
  match cs with
  | [] => some none
  | ['Z'] => some (some 0)
  | '+' :: r => (parseOffMagTail r).map (fun k => some k)
  | '-' :: r => (parseOffMagTail r).map (fun k => some (-k))
  | _ => none

/-- Model of CPython 3.11's `datetime.fromisoformat` on the shapes this
system can meet: a calendar date `YYYY-MM-DD` or `YYYYMMDD` (validated:
year ≥ 1, month 1..12, day within the month), optionally followed by one
separator character (any character, as CPython allows) and a time
`HH[[:]MM[[:]SS]][(.|,)digits]` with an optional trailing `Z` or
`(+|-)HH[[:]MM[[:]SS]]` offset.  ISO week dates (`2024-W03-1`) and
fractional offset seconds, which CPython additionally accepts but no
writer of this system produces, are outside the model. -/
def fromisoformatL (cs : List Char) : Option Datetime := do
  let (y, r1) ← takeDigits 4 cs
  let (mo, d, r5) ←
    match r1 with
    | '-' :: r2 => do
        let (mo, r3) ← takeDigits 2 r2
        match r3 with
        | '-' :: r4 => do
            let (dd, r5) ← takeDigits 2 r4
            some (mo, dd, r5)
        | _ => none
    | _ => do
        let (mo, r3) ← takeDigits 2 r1
        let (dd, r5) ← takeDigits 2 r3
        some (mo, dd, r5)
  if ¬ (1 ≤ y ∧ 1 ≤ mo ∧ mo ≤ 12 ∧ 1 ≤ d ∧ d ≤ daysInMonth y mo) then none
  else
    match r5 with
    | [] => some ⟨civilUsec y mo d 0 0 0 0, none⟩
    | _sep :: r6 => do
        let (h, mi, s, us, r7) ← parseTimeComps r6
        let off ← parseOffsetTail r7
        some ⟨civilUsec y mo d h mi s us, off⟩

/-! ### The two custom column types -/

/-- `"+00:00"` as a character list, the replacement Python uses for `"Z"`. -/
def plusZeroOffset : List Char := ['+', '0', '0', ':', '0', '0']

/-- Wrap the result of the parse back into the decoder's return convention:
a successful parse is the decoded datetime, a failed parse is the
`ValueError` CPython's `datetime.fromisoformat` raises. -/
def ofParse (r : Option Datetime) : Except String Value :=
  match r with
  | some t => Except.ok (Value.vdt t)
  | none => Except.error "Invalid isoformat string"

/-- Embedding of `UnixTimestampDateTime.process_bind_param` of the SQLAlchemy
models package (`src/packages/sqlalchemy/src/my_sqlalchemy/models/user.py`):
`None` passes through, a datetime becomes `int(value.timestamp() * 1000)` on
the sqlite dialect and is returned unchanged on any other dialect.
`localOff` is the ambient local-timezone offset `timestamp()` would use on a
naive datetime. -/
def processBindParamSA (localOff : Int) (dialectName : String) (value : Option Datetime) : Value :=
  match value with
  | none => Value.vnull
  | some v =>
      if dialectName = "sqlite" then Value.vint (pyTimestampMs localOff v)
      else Value.vdt v

/-- Embedding of `UnixTimestampDateTime.process_bind_param` of the SQLModel
models package (`src/packages/sqlmodel/src/my_sqlmodel/models/user.py`):
`return value` — the datetime (or `None`) passes through unchanged for every
dialect. -/
def processBindParamSM (_dialectName : String) (value : Option Datetime) : Option Datetime :=
  value

/-- The raw value the driver receives from the SQLModel bind step: `None`
stays null, a datetime is handed over as a native temporal value. -/
def valueOfOptDatetime (o : Option Datetime) : Value :=
  match o with
  | none => Value.vnull
  | some t => Value.vdt t

/-- The decode dispatcher shared verbatim by both
`UnixTimestampDateTime.process_result_value` implementations, with its two
standard-library collaborators — `datetime.fromisoformat` and
`datetime.fromtimestamp` — taken as the parameters `fromiso` and `fromts`:
`None` passes through as null; a datetime passes through; an integer is
handed to `fromts` (the source computes `fromtimestamp(value / 1000,
tz=timezone.utc)`) and a conversion error propagates; a string without
`'T'` has its spaces replaced by `'T'` before `fromiso` parses it, a string
with `'T'` has its `'Z'`s replaced by `"+00:00"` before `fromiso` parses
it, and a parse failure propagates; any other value passes through.  The
dialect argument is unused, as in the source. -/
def processResultValueGen (fromiso : List Char → Option Datetime)
    (fromts : Int → Except String Datetime) (_dialectName : String) (value : Value) :
    Except String Value :=
  match value with
  | Value.vnull => Except.ok Value.vnull
  | Value.vdt t => Except.ok (Value.vdt t)
  | Value.vint n => (fromts n).map Value.vdt
  | Value.vstr s =>
      if s.data.contains 'T' = false then ofParse (fromiso (pyReplaceChar s.data ' ' ['T']))
      else ofParse (fromiso (pyReplaceChar s.data 'Z' plusZeroOffset))
  | Value.vother g => Except.ok (Value.vother g)

/-- `UnixTimestampDateTime.process_result_value` of the SQLAlchemy models
package: the dispatcher instantiated with this file's models of the two
standard-library conversions. -/
def processResultValueSA (dialectName : String) (value : Value) : Except String Value :=
  processResultValueGen fromisoformatL pyFromtimestampUTCms dialectName value

/-- `UnixTimestampDateTime.process_result_value` of the SQLModel models
package — textually the same dispatcher as the SQLAlchemy one, instantiated
identically. -/
def processResultValueSM (dialectName : String) (value : Value) : Except String Value :=
  processResultValueGen fromisoformatL pyFromtimestampUTCms dialectName value

/-- The normalization the string branch of the dispatcher performs before
parsing: no `'T'` → spaces become `'T'`; otherwise `'Z'`s become `"+00:00"`. -/
def normalizeT (cs : List Char) : List Char :=
  if cs.contains 'T' = false then pyReplaceChar cs ' ' ['T']
  else pyReplaceChar cs 'Z' plusZeroOffset

/-! ### Column type selection, user rows, routers, Prisma manager -/

/-- Physical column types the dialect implementation can select. -/
inductive ColType where
  | integer : ColType
  | dateTime : ColType
deriving DecidableEq, Repr

/-- Embedding of `UnixTimestampDateTime.load_dialect_impl` of the SQLAlchemy
models package: `Integer` for the sqlite dialect, `DateTime` for every other
dialect. -/
def loadDialectImplSA (dialectName : String) : ColType :=
  if dialectName = "sqlite" then ColType.integer else ColType.dateTime

/-- The dialect implementation the SQLModel `UnixTimestampDateTime` selects:
it declares `impl = Integer` and does not override `load_dialect_impl`, and
the library default (`TypeDecorator.load_dialect_impl`, external collaborator)
returns the declared `impl` type for every dialect. -/
def loadDialectImplSM (_dialectName : String) : ColType :=
  ColType.integer

/-- A row of the `user` table, after decode (fields of the SQLAlchemy and
SQLModel `User` models). -/
structure UserRecord where
  id : Int
  email : String
  username : String
  fullName : Option String
  hashedPassword : String
  isActive : Bool
  isSuperuser : Bool
  createdAt : Datetime
  updatedAt : Datetime
deriving DecidableEq, Repr

/-- Embedding of the `UserCreate` request schema
(`src/apps/api/src/schemas/user.py`). -/
structure UserCreate where
  email : String
  username : String
  fullName : Option String
  isActive : Bool
  hashedPassword : String
deriving DecidableEq, Repr

/-- Embedding of the `UserUpdate` request schema: the four optional fields,
and nothing else — in particular no timestamp field.  A `none` field models
"not supplied" (absent from `model_dump(exclude_unset=True)`); `fullName`
can be supplied as an explicit null. -/
structure UserUpdate where
  email : Option String
  username : Option String
  fullName : Option (Option String)
  isActive : Option Bool
deriving DecidableEq, Repr

/-- Whether the PATCH payload changes the stored row: SQLAlchemy's flush
compares each supplied attribute with its committed value
(`_collect_update_commands`) and emits an UPDATE — firing `onupdate` — only
when some supplied value differs. -/
def rowChanged (r : UserRecord) (p : UserUpdate) : Bool :=
  (match p.email with | some e => e != r.email | none => false)
  || (match p.username with | some u2 => u2 != r.username | none => false)
  || (match p.fullName with | some f => f != r.fullName | none => false)
  || (match p.isActive with | some a => a != r.isActive | none => false)

/-- Embedding of the `update_user` handler
(`src/apps/api/src/routers/users.py`) together with the flush semantics of
the `updated_at` column: the setattr loop applies each supplied payload
field; at commit an UPDATE is emitted — and the column's
`onupdate=lambda: datetime.now(timezone.utc)` callable refreshes
`updated_at` to the current instant `now` — exactly when some supplied
value differs from the committed one; otherwise no UPDATE is flushed and
the row is untouched. -/
def updateUser (now : Datetime) (r : UserRecord) (p : UserUpdate) : UserRecord :=
  if rowChanged r p then
    { r with
      email := p.email.getD r.email
      username := p.username.getD r.username
      fullName := p.fullName.getD r.fullName
      isActive := p.isActive.getD r.isActive
      updatedAt := now }
  else r

/-- Embedding of `PrismaManager.init`: stores a freshly constructed,
connected client (represented by its identifier) in the class attribute. -/
def prismaInit (fresh : Nat) (_s : Option Nat) : Option Nat :=
  some fresh

/-- Embedding of `PrismaManager.close`: when a client is stored it is
disconnected and the attribute is reset to `None`; otherwise nothing
happens (the attribute is already `None`). -/
def prismaClose (s : Option Nat) : Option Nat :=
  match s with
  | some _ => none
  | none => none

/-- Embedding of `PrismaManager.get`: raises `RuntimeError` when no client
is stored, otherwise returns the stored client unchanged. -/
def prismaGet (s : Option Nat) : Except String Nat :=
  match s with
  | none => Except.error "Prisma client not initialized. Call PrismaManager.init() first."
  | some c => Except.ok c

/-- Whether some row of the table already has this email
(`select(User).where(User.email == ...)` returning a row). -/
def emailTaken (tbl : List UserRecord) (e : String) : Bool :=
  tbl.any (fun u => u.email == e)

/-- Whether some row of the table already has this username. -/
def usernameTaken (tbl : List UserRecord) (u : String) : Bool :=
  tbl.any (fun r => r.username == u)

/-- The row the create handlers construct from a `UserCreate` payload:
`is_superuser` defaults to false and both timestamps default to the current
instant. -/
def mkNewUser (now : Datetime) (newId : Int) (req : UserCreate) : UserRecord :=
  { id := newId
    email := req.email
    username := req.username
    fullName := req.fullName
    hashedPassword := req.hashedPassword
    isActive := req.isActive
    isSuperuser := false
    createdAt := now
    updatedAt := now }

/-- Embedding of the SQLAlchemy `create_user` handler
(`src/apps/api/src/routers/users.py`): an existing row with the same email
raises HTTP 400, then an existing row with the same username raises HTTP
400, otherwise the new row is inserted.  The result pairs the table after
the call with the handler outcome (error status or created row). -/
def createUserSA (now : Datetime) (newId : Int) (tbl : List UserRecord) (req : UserCreate) :
    List UserRecord × Except Nat UserRecord :=
  if emailTaken tbl req.email then (tbl, Except.error 400)
  else if usernameTaken tbl req.username then (tbl, Except.error 400)
  else (tbl ++ [mkNewUser now newId req], Except.ok (mkNewUser now newId req))

/-- Modelled from the spec: `prisma.user.create` against the shared `user`
table, whose Prisma schema (not under `src/`) declares `email` and
`username` unique — matching the `unique=True` columns of the SQLAlchemy
model.  A duplicate email or username makes the insert fail atomically with
`UniqueViolationError` (the table is unchanged); otherwise the row is
inserted. -/
def prismaUserInsert (now : Datetime) (newId : Int) (tbl : List UserRecord) (req : UserCreate) :
    List UserRecord × Except Unit UserRecord :=
  if emailTaken tbl req.email || usernameTaken tbl req.username then
    (tbl, Except.error ())
  else (tbl ++ [mkNewUser now newId req], Except.ok (mkNewUser now newId req))

/-- Embedding of the Prisma `create_user` handler
(`src/apps/api/src/routers/users_prisma.py`): the insert is attempted and a
`UniqueViolationError` is mapped to HTTP 400. -/
def createUserPrisma (now : Datetime) (newId : Int) (tbl : List UserRecord) (req : UserCreate) :
    List UserRecord × Except Nat UserRecord :=
  match prismaUserInsert now newId tbl req with
  | (t, Except.error _) => (t, Except.error 400)
  | (t, Except.ok u) => (t, Except.ok u)

/-! ### Concrete instances and spec-worded patterns -/

/-- Discriminator: is this raw value an integer? -/
def Value.isIntVal : Value → Bool
  | Value.vint _ => true
  | _ => false

/-- A sample decoded row used as a concrete instance. -/
def sampleUser : UserRecord :=
  { id := 1
    email := "alice@example.com"
    username := "alice"
    fullName := none
    hashedPassword := "hashed-pw-123"
    isActive := true
    isSuperuser := false
    createdAt := ⟨1705314600000000, some 0⟩
    updatedAt := ⟨1705314600000000, some 0⟩ }

/-- A sample PATCH payload supplying a username that differs from
`sampleUser`'s. -/
def samplePatch : UserUpdate :=
  { email := none
    username := some "alice2"
    fullName := none
    isActive := none }

/-- A PATCH payload that only re-sends `sampleUser`'s current username. -/
def resendPatch : UserUpdate :=
  { email := none
    username := some "alice"
    fullName := none
    isActive := none }

/-- A sample create request reusing `sampleUser`'s email. -/
def sampleCreateReq : UserCreate :=
  { email := "alice@example.com"
    username := "bob"
    fullName := none
    isActive := true
    hashedPassword := "hashed-pw-456" }

/-- Modelled from the spec: the space-separated writer pattern — variant
B's first recognized shape, the literal form `"YYYY-MM-DD HH:MM:SS"`. -/
def specSpaceSeparatedPattern (s : String) : Bool :=
  match s.data with
  | [y1, y2, y3, y4, '-', m1, m2, '-', d1, d2, ' ', h1, h2, ':', n1, n2, ':', s1, s2] =>
      ([y1, y2, y3, y4, m1, m2, d1, d2, h1, h2, n1, n2, s1, s2]).all Char.isDigit
  | _ => false

/-- Modelled from the spec: the `T`-separated writer pattern — variant B's
second recognized shape, an ISO-8601 string with the `T` separator. -/
def specTSeparatedPattern (s : String) : Bool :=
  s.data.contains 'T'

/-- Both decode dispatchers send a string raw value through the same
normalization (`' '` → `'T'` when no `'T'` occurs, else `'Z'` → `"+00:00"`)
followed by the ISO-8601 parse. -/
theorem processResultValueGen_vstr (fromiso : List Char → Option Datetime)
    (fromts : Int → Except String Datetime) (d s : String) :
    processResultValueGen fromiso fromts d (Value.vstr s)
      = ofParse (fromiso (normalizeT s.data)) := by
  by_cases hT : s.data.contains 'T' = false
  · simp only [processResultValueGen, normalizeT, if_pos hT]
  · simp only [processResultValueGen, normalizeT, if_neg hT]

end TsInterop

open TsInterop


/-- C1: the code contradicts the spec's lossless-round-trip invariant inside
the claimed domain.  At the UTC millisecond-precision instant
2242-06-15T12:00:00.123Z (epoch microseconds 8597793600123000), the sqlite
bind parameter `int(t.timestamp() * 1000)` computed through binary64
arithmetic is 8597793600122 — one millisecond low — so decoding it yields an
instant one millisecond before `t` and the round trip fails, while the
SQLModel pass-through path still returns `t` unchanged. -/
theorem claim_C1_bug_eval :
    pyTimestampMs 0 ⟨8597793600123000, some 0⟩ = 8597793600122
    ∧ processResultValueSA "x" (processBindParamSA 0 "sqlite" (some ⟨8597793600123000, some 0⟩))
        = Except.ok (Value.vdt ⟨8597793600122000, some 0⟩)
    ∧ (⟨8597793600122000, some 0⟩ : Datetime) ≠ ⟨8597793600123000, some 0⟩
    ∧ processResultValueSM "x"
        (valueOfOptDatetime (processBindParamSM "x" (some ⟨8597793600123000, some 0⟩)))
        = Except.ok (Value.vdt ⟨8597793600123000, some 0⟩) :=
  ⟨rfl, rfl, by decide, rfl⟩

/-- C2 as stated is false: on the sqlite dialect the SQLModel
`process_bind_param` returns the datetime unchanged, not its epoch-millis
integer, while the SQLAlchemy one does return an integer. -/
theorem claim_C2_counterexample :
    processBindParamSM "sqlite" (some ⟨0, some 0⟩) = some ⟨0, some 0⟩
    ∧ Value.isIntVal (valueOfOptDatetime (processBindParamSM "sqlite" (some ⟨0, some 0⟩))) = false
    ∧ Value.isIntVal (processBindParamSA 0 "sqlite" (some ⟨0, some 0⟩)) = true :=
  ⟨rfl, rfl, rfl⟩

/-- C2 amended: on the sqlite dialect the SQLAlchemy `process_bind_param`
returns `int(t.timestamp() * 1000)`, the binary64-computed epoch
milliseconds — equal to the exact epoch value at ordinary magnitudes
(2024-01-15T10:30:00.123Z ↦ 1705314600123) but one millisecond low at
far-future instants (2243-01-15T10:30:00.123Z ↦ 8616277800122, not
8616277800123) — and the datetime unchanged on every other dialect; the
SQLModel `process_bind_param` returns the datetime unchanged for every
dialect. -/
theorem claim_C2_amended (localOff : Int) (t : Datetime) (d : String) (hd : d ≠ "sqlite") :
    processBindParamSA localOff "sqlite" (some t) = Value.vint (pyTimestampMs localOff t)
    ∧ processBindParamSA localOff d (some t) = Value.vdt t
    ∧ processBindParamSM d (some t) = some t
    ∧ pyTimestampMs 0 ⟨1705314600123000, some 0⟩ = 1705314600123
    ∧ pyTimestampMs 0 ⟨8616277800123000, some 0⟩ = 8616277800122
    ∧ pyTimestampMs 0 ⟨8616277800123000, some 0⟩ ≠ 8616277800123 := by
  refine ⟨?_, ?_, rfl, rfl, rfl, by decide⟩
  · simp [processBindParamSA]
  · simp [processBindParamSA, hd]

/-- Concrete instance of the amended C2 on a non-sqlite dialect. -/
theorem claim_C2_witness :
    processBindParamSA 0 "postgresql" (some ⟨1705314600000000, some 0⟩)
      = Value.vdt ⟨1705314600000000, some 0⟩ :=
  (claim_C2_amended 0 ⟨1705314600000000, some 0⟩ "postgresql" (by decide)).2.1

/-- C3 as stated is false for the integer clause: decoding the raw integer
253402300799999 (the largest epoch-millisecond value of year 9999) yields
253402300799998993 microseconds — seven microseconds below the exact UTC
instant at v/1000 seconds — because `fromtimestamp(v / 1000)` goes through
binary64 arithmetic. -/
theorem claim_C3_counterexample :
    processResultValueSA "sqlite" (Value.vint 253402300799999)
      = Except.ok (Value.vdt ⟨253402300799998993, some 0⟩)
    ∧ (253402300799998993 : Int) ≠ 253402300799999 * 1000 :=
  ⟨rfl, by decide⟩

/-- C3 amended: the decode dispatcher classifies its raw input by variant —
for any behavior of its two standard-library collaborators: an
already-decoded datetime is returned unchanged, null is returned as null, an
integer is handed to the `fromtimestamp(v / 1000, utc)` conversion (whose
binary64 result equals the exact UTC instant at v/1000 seconds at ordinary
magnitudes but can be microsecond-perturbed near the extremes, and raises
out of range), a string containing no 'T' has its spaces replaced by 'T' and
is parsed as ISO-8601, a string containing 'T' has its 'Z's replaced by
'+00:00' and is parsed as ISO-8601, and any other value is returned
unchanged. -/
theorem claim_C3_amended (fromiso : List Char → Option Datetime)
    (fromts : Int → Except String Datetime) (d : String) :
    processResultValueGen fromiso fromts d Value.vnull = Except.ok Value.vnull
    ∧ (∀ t : Datetime,
        processResultValueGen fromiso fromts d (Value.vdt t) = Except.ok (Value.vdt t))
    ∧ (∀ n : Int,
        processResultValueGen fromiso fromts d (Value.vint n) = (fromts n).map Value.vdt)
    ∧ (∀ s : String, s.data.contains 'T' = false →
        processResultValueGen fromiso fromts d (Value.vstr s)
          = ofParse (fromiso (pyReplaceChar s.data ' ' ['T'])))
    ∧ (∀ s : String, s.data.contains 'T' = true →
        processResultValueGen fromiso fromts d (Value.vstr s)
          = ofParse (fromiso (pyReplaceChar s.data 'Z' plusZeroOffset)))
    ∧ (∀ g : Nat,
        processResultValueGen fromiso fromts d (Value.vother g) = Except.ok (Value.vother g))
    ∧ (∀ v : Int, processResultValueSA d (Value.vint v) = (pyFromtimestampUTCms v).map Value.vdt)
    ∧ processResultValueSA d (Value.vint 1705314600123)
        = Except.ok (Value.vdt ⟨1705314600123000, some 0⟩)
    ∧ processResultValueSA d (Value.vint 1000000000000000000)
        = Except.error "year is out of range"
    ∧ processResultValueSM d (Value.vint 1705314600123)
        = Except.ok (Value.vdt ⟨1705314600123000, some 0⟩) := by
  refine ⟨rfl, fun t => rfl, fun n => rfl, fun s hs => ?_, fun s hs => ?_, fun g => rfl,
    fun v => rfl, rfl, rfl, rfl⟩
  · simp only [processResultValueGen, if_pos hs]
  · have hs2 : ¬ s.data.contains 'T' = false := by rw [hs]; simp
    simp only [processResultValueGen, if_neg hs2]

/-- Concrete instance of the amended C3's no-'T' string branch. -/
theorem claim_C3_witness :
    processResultValueGen fromisoformatL pyFromtimestampUTCms "sqlite"
        (Value.vstr "2024-01-15 10:30:00")
      = ofParse (fromisoformatL (pyReplaceChar ("2024-01-15 10:30:00").data ' ' ['T'])) :=
  (claim_C3_amended fromisoformatL pyFromtimestampUTCms "sqlite").2.2.2.1
    "2024-01-15 10:30:00" rfl

/-- C4 as stated is false: the space-separated string variant decodes to a
naive datetime (no timezone offset at all), not a UTC-aware one. -/
theorem claim_C4_counterexample :
    processResultValueSA "sqlite" (Value.vstr "2024-01-15 10:30:00")
      = Except.ok (Value.vdt ⟨1705314600000000, none⟩)
    ∧ (⟨1705314600000000, none⟩ : Datetime).off = none :=
  ⟨rfl, rfl⟩

/-- C4 amended: every successful decode of the integer epoch-millis variant
is a UTC-aware instant (whatever microsecond perturbation the float
conversion introduces), and strings with an explicit `Z`/`+00:00` offset
decode UTC-aware; but space- or `T`-separated strings without an offset
decode to naive datetimes, and an already-decoded datetime passes through
with its original timezone information. -/
theorem claim_C4_amended (d : String) (t : Datetime) :
    (∀ v : Int, ∀ dt2 : Datetime,
        pyFromtimestampUTCms v = Except.ok dt2 → dt2.off = some 0)
    ∧ (∀ v : Int, ∀ dt2 : Datetime,
        processResultValueSA d (Value.vint v) = Except.ok (Value.vdt dt2) → dt2.off = some 0)
    ∧ processResultValueSA d (Value.vdt t) = Except.ok (Value.vdt t)
    ∧ processResultValueSA d (Value.vstr "2024-01-15 10:30:00")
        = Except.ok (Value.vdt ⟨1705314600000000, none⟩)
    ∧ processResultValueSA d (Value.vstr "2024-01-15T10:30:00")
        = Except.ok (Value.vdt ⟨1705314600000000, none⟩)
    ∧ processResultValueSA d (Value.vstr "2024-01-15T10:30:00Z")
        = Except.ok (Value.vdt ⟨1705314600000000, some 0⟩)
    ∧ processResultValueSA d (Value.vstr "2024-01-15T10:30:00+00:00")
        = Except.ok (Value.vdt ⟨1705314600000000, some 0⟩)
    ∧ processResultValueSM d (Value.vstr "2024-01-15 10:30:00")
        = Except.ok (Value.vdt ⟨1705314600000000, none⟩) := by
  have hfts : ∀ v : Int, ∀ dt2 : Datetime,
      pyFromtimestampUTCms v = Except.ok dt2 → dt2.off = some 0 := by
    intro v dt2 h
    unfold pyFromtimestampUTCms at h
    split at h
    · injection h with h2
      subst h2
      rfl
    · cases h
  refine ⟨hfts, ?_, rfl, rfl, rfl, rfl, rfl, rfl⟩
  intro v dt2 h
  simp only [processResultValueSA, processResultValueGen] at h
  cases hts : pyFromtimestampUTCms v with
  | ok d2 =>
      rw [hts] at h
      simp only [Except.map] at h
      injection h with h2
      injection h2 with h3
      subst h3
      exact hfts v d2 hts
  | error e =>
      rw [hts] at h
      simp [Except.map] at h

/-- Concrete instance of the amended C4: a decoded epoch-millis integer is
UTC-aware. -/
theorem claim_C4_witness :
    processResultValueSA "sqlite" (Value.vint 1705314600000)
      = Except.ok (Value.vdt ⟨1705314600000000, some 0⟩)
    ∧ (⟨1705314600000000, some 0⟩ : Datetime).off = some 0 :=
  ⟨rfl, (claim_C4_amended "sqlite" ⟨0, none⟩).2.1 1705314600000 ⟨1705314600000000, some 0⟩ rfl⟩

/-- C5 as stated is false: the bare date "2024-01-15" matches neither
recognized writer pattern (it is not the space-separated
"YYYY-MM-DD HH:MM:SS" shape and contains no 'T'), yet the decode dispatcher
parses it successfully instead of raising. -/
theorem claim_C5_counterexample :
    specSpaceSeparatedPattern "2024-01-15" = false
    ∧ specTSeparatedPattern "2024-01-15" = false
    ∧ processResultValueSA "x" (Value.vstr "2024-01-15")
        = Except.ok (Value.vdt ⟨1705276800000000, none⟩) :=
  ⟨rfl, rfl, rfl⟩

/-- C5 amended: a string makes the decode dispatcher raise exactly when the
ISO-8601 parse of its normalized form fails — whatever strings the
standard-library parser accepts — and a string never decodes to null or to a
substituted default (every successful string decode is the parsed instant);
in particular "not-a-date" raises.  Strings outside the two documented
writer patterns, such as bare dates, may still be valid ISO-8601 and decode
successfully. -/
theorem claim_C5_amended (fromiso : List Char → Option Datetime)
    (fromts : Int → Except String Datetime) (d s : String)
    (hfail : fromiso (normalizeT s.data) = none) :
    processResultValueGen fromiso fromts d (Value.vstr s)
      = Except.error "Invalid isoformat string"
    ∧ (∀ v : Value, processResultValueGen fromiso fromts d (Value.vstr s) ≠ Except.ok v)
    ∧ (∀ s2 : String, ∀ v : Value,
        processResultValueGen fromiso fromts d (Value.vstr s2) = Except.ok v →
        ∃ t2 : Datetime, fromiso (normalizeT s2.data) = some t2 ∧ v = Value.vdt t2)
    ∧ processResultValueSA d (Value.vstr "not-a-date")
        = Except.error "Invalid isoformat string" := by
  have hmain := processResultValueGen_vstr fromiso fromts d s
  rw [hfail] at hmain
  refine ⟨hmain, ?_, ?_, rfl⟩
  · intro v hv
    rw [hmain] at hv
    cases hv
  intro s2 v hv
  have h2 := processResultValueGen_vstr fromiso fromts d s2
  rw [h2] at hv
  cases hpar : fromiso (normalizeT s2.data) with
  | none =>
      rw [hpar] at hv
      simp [ofParse] at hv
  | some t2 =>
      rw [hpar] at hv
      simp only [ofParse] at hv
      injection hv with h3
      exact ⟨t2, rfl, h3.symm⟩

/-- Concrete instance of the amended C5: "not-a-date" raises. -/
theorem claim_C5_witness :
    processResultValueGen fromisoformatL pyFromtimestampUTCms "sqlite" (Value.vstr "not-a-date")
      = Except.error "Invalid isoformat string" :=
  (claim_C5_amended fromisoformatL pyFromtimestampUTCms "sqlite" "not-a-date" rfl).1

/-- C6 as stated is false: the SQLModel path declares `Integer` as its
dialect implementation for every backend, including non-sqlite ones. -/
theorem claim_C6_counterexample :
    loadDialectImplSM "postgresql" = ColType.integer
    ∧ loadDialectImplSM "postgresql" ≠ ColType.dateTime :=
  ⟨rfl, by decide⟩

/-- C6 amended: the SQLAlchemy path selects an integer column for sqlite and
a native `DateTime` column for every other backend, while the SQLModel path
declares a plain integer column unconditionally, for every backend. -/
theorem claim_C6_amended (d : String) (hd : d ≠ "sqlite") :
    loadDialectImplSA "sqlite" = ColType.integer
    ∧ loadDialectImplSA d = ColType.dateTime
    ∧ loadDialectImplSM "sqlite" = ColType.integer
    ∧ loadDialectImplSM d = ColType.integer := by
  refine ⟨rfl, ?_, rfl, rfl⟩
  simp [loadDialectImplSA, hd]

/-- Concrete instance of the amended C6 on a non-sqlite dialect. -/
theorem claim_C6_witness :
    loadDialectImplSA "postgresql" = ColType.dateTime :=
  (claim_C6_amended "postgresql" (by decide)).2.1

/-- C7 as stated is false: a successful PATCH whose payload only re-sends
the row's current username produces no net attribute change, so the flush
emits no UPDATE, `onupdate` never fires, and `updated_at` keeps its old
value instead of being refreshed to the current instant. -/
theorem claim_C7_counterexample :
    resendPatch.username = some sampleUser.username
    ∧ updateUser ⟨1705400000000000, some 0⟩ sampleUser resendPatch = sampleUser
    ∧ sampleUser.updatedAt ≠ ⟨1705400000000000, some 0⟩ :=
  ⟨rfl, by decide, by decide⟩

/-- C7 amended: `updated_at` is refreshed to the current instant exactly
when the update changes some stored field value (the `UserUpdate` schema
exposes no timestamp field, so callers cannot set it); `created_at`, the
identity, password and superuser fields, and every field not supplied in
the payload keep their values; an update whose payload supplies nothing or
only re-sends the current values flushes no UPDATE and leaves the row —
`updated_at` included — unchanged. -/
theorem claim_C7_amended (now : Datetime) (r : UserRecord) (p : UserUpdate)
    (hch : rowChanged r p = true) :
    (updateUser now r p).updatedAt = now
    ∧ (updateUser now r p).createdAt = r.createdAt
    ∧ (updateUser now r p).id = r.id
    ∧ (updateUser now r p).hashedPassword = r.hashedPassword
    ∧ (updateUser now r p).isSuperuser = r.isSuperuser
    ∧ (p.email = none → (updateUser now r p).email = r.email)
    ∧ (p.username = none → (updateUser now r p).username = r.username)
    ∧ (p.fullName = none → (updateUser now r p).fullName = r.fullName)
    ∧ (p.isActive = none → (updateUser now r p).isActive = r.isActive)
    ∧ (∀ p2 : UserUpdate, rowChanged r p2 = false → updateUser now r p2 = r) := by
  refine ⟨?_, ?_, ?_, ?_, ?_, fun h => ?_, fun h => ?_, fun h => ?_, fun h => ?_,
    fun p2 h => ?_⟩ <;> simp [updateUser, hch, *]

/-- Concrete instance of the amended C7: patching the username to a new
value refreshes `updated_at` and leaves the email unchanged. -/
theorem claim_C7_witness :
    (updateUser ⟨1705400000000000, some 0⟩ sampleUser samplePatch).updatedAt
      = ⟨1705400000000000, some 0⟩
    ∧ (updateUser ⟨1705400000000000, some 0⟩ sampleUser samplePatch).email
      = sampleUser.email :=
  ⟨(claim_C7_amended ⟨1705400000000000, some 0⟩ sampleUser samplePatch (by decide)).1,
   (claim_C7_amended ⟨1705400000000000, some 0⟩ sampleUser samplePatch
      (by decide)).2.2.2.2.2.1 rfl⟩

/-- C8: the dialect argument never alters decode semantics — both decode
dispatchers return the same result under any two dialect identifiers (and
the two dispatchers agree with each other). -/
theorem claim_C8 (v : Value) (d1 d2 : String) :
    processResultValueSA d1 v = processResultValueSA d2 v
    ∧ processResultValueSM d1 v = processResultValueSM d2 v
    ∧ processResultValueSA d1 v = processResultValueSM d2 v :=
  ⟨rfl, rfl, rfl⟩

/-- C9: `PrismaManager.get` raises `RuntimeError` before `init` has stored a
client and after `close` has reset it, and otherwise returns the stored
client unchanged. -/
theorem claim_C9 (s : Option Nat) (c fresh : Nat) :
    prismaGet none
      = Except.error "Prisma client not initialized. Call PrismaManager.init() first."
    ∧ prismaGet (prismaClose s)
      = Except.error "Prisma client not initialized. Call PrismaManager.init() first."
    ∧ prismaGet (prismaInit fresh s) = Except.ok fresh
    ∧ (s = some c → prismaGet s = Except.ok c) := by
  refine ⟨rfl, ?_, rfl, fun h => by subst h; rfl⟩
  cases s <;> rfl

/-- Concrete instance of C9: an initialized manager returns its client. -/
theorem claim_C9_witness :
    prismaGet (some 5) = Except.ok 5 :=
  (claim_C9 (some 5) 5 7).2.2.2 rfl

/-- C10: a create request whose email or username is already taken fails
with HTTP 400 and leaves the user table unchanged, on both the SQLAlchemy
handler (check before insert) and the Prisma handler (unique-violation
mapped to 400). -/
theorem claim_C10 (now : Datetime) (newId : Int) (tbl : List UserRecord) (req : UserCreate)
    (hdup : emailTaken tbl req.email = true ∨ usernameTaken tbl req.username = true) :
    createUserSA now newId tbl req = (tbl, Except.error 400)
    ∧ createUserPrisma now newId tbl req = (tbl, Except.error 400) := by
  rcases hdup with h | h
  · constructor <;> simp [createUserSA, createUserPrisma, prismaUserInsert, h]
  · by_cases he : emailTaken tbl req.email = true
    · constructor <;> simp [createUserSA, createUserPrisma, prismaUserInsert, he]
    · have he2 : emailTaken tbl req.email = false := by
        revert he; cases emailTaken tbl req.email <;> simp
      constructor <;> simp [createUserSA, createUserPrisma, prismaUserInsert, he2, h]

/-- Concrete instance of C10: re-using `sampleUser`'s email is rejected with
400 and inserts nothing. -/
theorem claim_C10_witness :
    createUserSA ⟨0, some 0⟩ 2 [sampleUser] sampleCreateReq
      = ([sampleUser], Except.error 400) :=
  (claim_C10 ⟨0, some 0⟩ 2 [sampleUser] sampleCreateReq (Or.inl (by decide))).1
